import Mathlib

set_option autoImplicit false

namespace ObjLoader

/-- Scalar numeric values of the loader. The Go source computes with `float32`;
we model numeric values as exact rationals, which agrees with `float32`
arithmetic on the exactly representable inputs the claims exercise and elides
rounding (no claim depends on rounding behaviour). -/
abbrev Scalar := ℚ

/-- `Vec3 = [3]float32` from the source. -/
abbrev Vec3 := Scalar × Scalar × Scalar

/-- `Vec2 = [2]float32` from the source. -/
abbrev Vec2 := Scalar × Scalar

/-- The distinct failure outcomes of the loader. `invalidFormat`/`notSupported`
carry the message of `errorInvalidFormat`/`errorNotSupported`;
`malformedNumber` stands for a `strconv` parse error on the given field;
the `panic…` constructors stand for the native Go runtime failures (slice
index out of range, reslice out of bounds, nil-pointer dereference), which
abort the call without a normal error return. -/
inductive GoError where
  | ioFailure (path : String)
  | malformedNumber (field : String)
  | invalidFormat (msg : String)
  | notSupported (msg : String)
  | panicIndexOutOfRange
  | panicSliceBounds
  | panicNilDeref
  deriving DecidableEq, Repr

/-- Separator characters of Go `strings.Fields` (the ASCII fragment of
`unicode.IsSpace`; the loader's record text is space separated). -/
def isGoSpace (c : Char) : Bool :=
  c = ' ' || c = '\t' || c = '\n' || c = '\r'

def goFieldsAux (acc : List Char) : List Char → List (List Char)
  | [] => if acc = [] then [] else [acc.reverse]
  | c :: cs =>
    if isGoSpace c then
      if acc = [] then goFieldsAux [] cs else acc.reverse :: goFieldsAux [] cs
    else goFieldsAux (c :: acc) cs

/-- Model of Go `strings.Fields`: split around runs of whitespace, no empty
fields. -/
def goFields (s : String) : List String :=
  (goFieldsAux [] s.data).map fun l => String.mk l

/-- Model of Go `strings.Split` with a one-character separator: the result
always has at least one (possibly empty) segment. -/
def goSplit (sep : Char) : List Char → List (List Char)
  | [] => [[]]
  | c :: cs =>
    if c = sep then [] :: goSplit sep cs
    else
      match goSplit sep cs with
      | [] => [[c]]
      | s :: rest => (c :: s) :: rest

/-- Model of Go `strings.Trim p "/"`: remove leading and trailing slashes. -/
def trimSlash (s : String) : String :=
  String.mk (((s.data.dropWhile fun c => c = '/').reverse.dropWhile fun c => c = '/').reverse)

/-- `getFaceType` from the source: classify one face token by its
slash-delimited shape. `0` = position only, `1` = position/uv,
`2` = position/uv/normal, `3` = position//normal, `-1` = invalid. -/
def getFaceType (p : String) : Int :=
  match goSplit '/' p.data with
  | [] => -1
  | [_] => 0
  | [_, _] => 1
  | [_, b, _] => if b ≠ [] then 2 else 3
  | _ => -1

/-- Numeric value of an ASCII digit. -/
def digitVal (c : Char) : Nat := c.toNat - 48

def scanDigits (acc : Nat) : List Char → Nat × List Char
  | [] => (acc, [])
  | c :: cs => if c.isDigit then scanDigits (acc * 10 + digitVal c) cs else (acc, c :: cs)

def scanIntNat : List Char → Option (Nat × List Char)
  | c :: cs => if c.isDigit then some (scanDigits (digitVal c) cs) else none
  | [] => none

/-- Scanning a decimal integer from the front of a token, as `fmt.Fscanf`'s
`%d` verb does: an optional sign followed by at least one digit. Returns the
value and the unconsumed remainder, or `none` when no digit is found. -/
def scanInt : List Char → Option (Int × List Char)
  | [] => none
  | '-' :: cs => (scanIntNat cs).map fun p => (-(p.1 : Int), p.2)
  | '+' :: cs => (scanIntNat cs).map fun p => ((p.1 : Int), p.2)
  | cs => (scanIntNat cs).map fun p => ((p.1 : Int), p.2)

/-- `fmt.Fscanf(reader, "%d/%d", &a, &b)` with errors discarded: a slot whose
scan fails keeps the Go zero value `0`, and scanning stops at the first
mismatch. -/
def scanSlash2 (l : List Char) : List Int :=
  match scanInt l with
  | none => [0, 0]
  | some (a, r) =>
    match r with
    | '/' :: r2 =>
      match scanInt r2 with
      | none => [a, 0]
      | some (b, _) => [a, b]
    | _ => [a, 0]

/-- `fmt.Fscanf(reader, "%d/%d/%d", &a, &b, &c)` with errors discarded. -/
def scanSlash3 (l : List Char) : List Int :=
  match scanInt l with
  | none => [0, 0, 0]
  | some (a, r) =>
    match r with
    | '/' :: r2 =>
      match scanInt r2 with
      | none => [a, 0, 0]
      | some (b, r3) =>
        match r3 with
        | '/' :: r4 =>
          match scanInt r4 with
          | none => [a, b, 0]
          | some (c, _) => [a, b, c]
        | _ => [a, b, 0]
    | _ => [a, 0, 0]

/-- `fmt.Fscanf(reader, "%d//%d", &a, &b)` with errors discarded. -/
def scanDoubleSlash (l : List Char) : List Int :=
  match scanInt l with
  | none => [0, 0]
  | some (a, r) =>
    match r with
    | '/' :: '/' :: r2 =>
      match scanInt r2 with
      | none => [a, 0]
      | some (b, _) => [a, b]
    | _ => [a, 0]

/-- `getFaceData` from the source: extract the integer index references of one
face token with `fmt.Fscanf`. The source discards every `Fscanf` error, so a
slot whose scan fails keeps the Go zero value `0`. -/
def getFaceData (p : String) (vtype : Int) : List Int :=
  if vtype = 0 then
    match scanInt p.data with
    | some (a, _) => [a]
    | none => [0]
  else if vtype = 1 then scanSlash2 p.data
  else if vtype = 2 then scanSlash3 p.data
  else if vtype = 3 then scanDoubleSlash p.data
  else []

def allDigits (l : List Char) : Bool := l.all Char.isDigit

def digitsToNat (l : List Char) : Nat := l.foldl (fun n c => n * 10 + digitVal c) 0

/-- Split a character list at the first `e` or `E`. -/
def splitExp : List Char → List Char × Option (List Char)
  | [] => ([], none)
  | c :: cs =>
    if c = 'e' || c = 'E' then ([], some cs)
    else
      let (m, e) := splitExp cs
      (c :: m, e)

/-- Split a character list at the first decimal point. -/
def splitDot : List Char → List Char × Option (List Char)
  | [] => ([], none)
  | c :: cs =>
    if c = '.' then ([], some cs)
    else
      let (m, e) := splitDot cs
      (c :: m, e)

def stripSign : List Char → Bool × List Char
  | '-' :: cs => (true, cs)
  | '+' :: cs => (false, cs)
  | cs => (false, cs)

/-- Model of Go `strconv.ParseFloat` restricted to finite decimal literals
(the only numeric form the loader's inputs exercise; `Inf`, `NaN` and hex
floats are out of scope), yielding the exactly represented rational value. -/
def parseFloat? (s : String) : Option Scalar :=
  match s.data with
  | [] => none
  | l =>
    let (neg, l1) := stripSign l
    if l1 = [] then none
    else
      let (mant, expPart) := splitExp l1
      let expVal : Option Int :=
        match expPart with
        | none => some 0
        | some e =>
          let (eneg, edigits) := stripSign e
          if edigits = [] || !allDigits edigits then none
          else some (if eneg then -(digitsToNat edigits : Int) else (digitsToNat edigits : Int))
      match expVal with
      | none => none
      | some ex =>
        let (ip, fp) := splitDot mant
        let fdigits := fp.getD []
        if !allDigits ip || !allDigits fdigits then none
        else if ip = [] && fdigits = [] then none
        else
          let mantVal : Scalar :=
            (digitsToNat ip : Scalar) + (digitsToNat fdigits : Scalar) / (10 : Scalar) ^ fdigits.length
          let v := mantVal * (10 : Scalar) ^ ex
          some (if neg then -v else v)

/-- Model of Go `strconv.Atoi`: an optional sign followed by digits, consuming
the entire string. -/
def parseInt? (s : String) : Option Int :=
  match s.data with
  | [] => none
  | l =>
    let (neg, l1) := stripSign l
    if l1 = [] || !allDigits l1 then none
    else some (if neg then -(digitsToNat l1 : Int) else (digitsToNat l1 : Int))

/-- `sliceToFloat32` from the source: parse each field in order, stopping at
the first malformed one. -/
def parseFloats : List String → Except GoError (List Scalar)
  | [] => .ok []
  | f :: fs =>
    match parseFloat? f with
    | none => .error (.malformedNumber f)
    | some x =>
      match parseFloats fs with
      | .error e => .error e
      | .ok xs => .ok (x :: xs)

/-- Model of a Go slice access `l[i]`: an out-of-range index (negative
included) is the native index-out-of-range panic. -/
def goIndex {α : Type} (l : List α) (i : Int) : Except GoError α :=
  if h : 0 ≤ i ∧ i.toNat < l.length then .ok (l.get ⟨i.toNat, h.2⟩)
  else .error .panicIndexOutOfRange

/-- `Mesh` from the source. -/
structure Mesh where
  Vertices : List Scalar
  Vtype : Int
  MaterialName : String
  deriving DecidableEq, Repr

/-- `Options` from the source. -/
structure Options where
  NeedNormals : Bool
  deriving DecidableEq, Repr

/-- `Material` from the source. -/
structure Material where
  Name : String
  Ns : Scalar
  Ni : Scalar
  D : Scalar
  Illum : Int
  Ka : Vec3
  Kd : Vec3
  Ks : Vec3
  Ke : Vec3
  Ki : Vec3
  deriving DecidableEq, Repr

/-- `&Material{Name: name}`: every other field keeps its Go zero value. -/
def emptyMaterial (name : String) : Material :=
  ⟨name, 0, 0, 0, 0, (0, 0, 0), (0, 0, 0), (0, 0, 0), (0, 0, 0), (0, 0, 0)⟩

/-- `MaterialMap` and `MeshMap` from the source, as association lists: a later
insertion with the same key shadows the earlier entry, matching Go map
overwrite semantics. -/
abbrev MaterialMap := List (String × Material)

abbrev MeshMap := List (String × Mesh)

def mapLookup {β : Type} : List (String × β) → String → Option β
  | [], _ => none
  | (k', v) :: rest, k => if k' = k then some v else mapLookup rest k

def mapInsert {β : Type} (m : List (String × β)) (k : String) (v : β) : List (String × β) :=
  (k, v) :: m

/-- A file system: maps a path to the file's lines, `none` when the file
cannot be opened. -/
def FileSys : Type := String → Option (List String)

/-- Write through the current-material pointer of `LoadMtl`. A property
keyword seen before any `newmtl` writes through a nil pointer, the native
panic. Once `newmtl` has run, the pointer designates the map entry of that
name, so the write updates the entry in place. -/
def updateCurrent (mats : MaterialMap) (cur : Option String) (f : Material → Material) :
    Except GoError MaterialMap :=
  match cur with
  | none => .error .panicNilDeref
  | some name =>
    match mapLookup mats name with
    | none => .error .panicNilDeref
    | some m => .ok (mapInsert mats name (f m))

/-- One line of `LoadMtl`'s dispatch. Scalar keywords parse their field before
the pointer write, matching the source's statement order; vector keywords
parse every trailing field (`sliceToFloat32(parts)`) and then use the first
three values. Unrecognized keywords are silently ignored. -/
def processMtlLine (cur : Option String) (mats : MaterialMap) (line : String) :
    Except GoError (Option String × MaterialMap) :=
  match goFields line with
  | [] => .ok (cur, mats)
  | key :: parts =>
    if key = "newmtl" then
      match goIndex parts 0 with
      | .error e => .error e
      | .ok name => .ok (some name, mapInsert mats name (emptyMaterial name))
    else if key = "Ns" then
      match parts with
      | [] => .error (.invalidFormat "'Ns' must have 1 element")
      | p :: _ =>
        match parseFloat? p with
        | none => .error (.malformedNumber p)
        | some x =>
          match updateCurrent mats cur (fun m => { m with Ns := x }) with
          | .error e => .error e
          | .ok mats' => .ok (cur, mats')
    else if key = "Ni" then
      match parts with
      | [] => .error (.invalidFormat "'Ni' must have 1 element")
      | p :: _ =>
        match parseFloat? p with
        | none => .error (.malformedNumber p)
        | some x =>
          match updateCurrent mats cur (fun m => { m with Ni := x }) with
          | .error e => .error e
          | .ok mats' => .ok (cur, mats')
    else if key = "d" then
      match parts with
      | [] => .error (.invalidFormat "'d' must have 1 element")
      | p :: _ =>
        match parseFloat? p with
        | none => .error (.malformedNumber p)
        | some x =>
          match updateCurrent mats cur (fun m => { m with D := x }) with
          | .error e => .error e
          | .ok mats' => .ok (cur, mats')
    else if key = "illum" then
      match parts with
      | [] => .error (.invalidFormat "'illum' must have 1 element")
      | p :: _ =>
        match parseInt? p with
        | none => .error (.malformedNumber p)
        | some x =>
          match updateCurrent mats cur (fun m => { m with Illum := x }) with
          | .error e => .error e
          | .ok mats' => .ok (cur, mats')
    else if key = "Ka" then
      if parts.length < 3 then .error (.invalidFormat "'Ka' must have 3 element")
      else
        match parseFloats parts with
        | .error e => .error e
        | .ok (n0 :: n1 :: n2 :: _) =>
          match updateCurrent mats cur (fun m => { m with Ka := (n0, n1, n2) }) with
          | .error e => .error e
          | .ok mats' => .ok (cur, mats')
        | .ok _ => .error .panicIndexOutOfRange
    else if key = "Kd" then
      if parts.length < 3 then .error (.invalidFormat "'Kd' must have 3 element")
      else
        match parseFloats parts with
        | .error e => .error e
        | .ok (n0 :: n1 :: n2 :: _) =>
          match updateCurrent mats cur (fun m => { m with Kd := (n0, n1, n2) }) with
          | .error e => .error e
          | .ok mats' => .ok (cur, mats')
        | .ok _ => .error .panicIndexOutOfRange
    else if key = "Ke" then
      if parts.length < 3 then .error (.invalidFormat "'Ke' must have 3 element")
      else
        match parseFloats parts with
        | .error e => .error e
        | .ok (n0 :: n1 :: n2 :: _) =>
          match updateCurrent mats cur (fun m => { m with Ke := (n0, n1, n2) }) with
          | .error e => .error e
          | .ok mats' => .ok (cur, mats')
        | .ok _ => .error .panicIndexOutOfRange
    else if key = "Ki" then
      if parts.length < 3 then .error (.invalidFormat "'Ki' must have 3 element")
      else
        match parseFloats parts with
        | .error e => .error e
        | .ok (n0 :: n1 :: n2 :: _) =>
          match updateCurrent mats cur (fun m => { m with Ki := (n0, n1, n2) }) with
          | .error e => .error e
          | .ok mats' => .ok (cur, mats')
        | .ok _ => .error .panicIndexOutOfRange
    else if key = "Ks" then
      if parts.length < 3 then .error (.invalidFormat "'Ks' must have 3 element")
      else
        match parseFloats parts with
        | .error e => .error e
        | .ok (n0 :: n1 :: n2 :: _) =>
          match updateCurrent mats cur (fun m => { m with Ks := (n0, n1, n2) }) with
          | .error e => .error e
          | .ok mats' => .ok (cur, mats')
        | .ok _ => .error .panicIndexOutOfRange
    else .ok (cur, mats)

/-- The scan loop of `LoadMtl`. On a failure the materials written so far stay
in the caller's map, which the Go code mutates in place. -/
def loadMtlLines (cur : Option String) (mats : MaterialMap) :
    List String → Option GoError × MaterialMap
  | [] => (none, mats)
  | line :: rest =>
    match processMtlLine cur mats line with
    | .error e => (some e, mats)
    | .ok (cur', mats') => loadMtlLines cur' mats' rest

/-- `LoadMtl` from the source: open the file and scan its lines. The error
component (if any) comes with the caller-visible material map, which keeps
everything written before the failure. -/
def loadMtl (fsys : FileSys) (path : String) (mats : MaterialMap) :
    Option GoError × MaterialMap :=
  match fsys path with
  | none => (some (.ioFailure path), mats)
  | some lines => loadMtlLines none mats lines

/-- The caller-visible and local state of one `LoadObj` invocation. `meshes`
and `materials` model the caller-provided maps, which the Go code mutates in
place; the other fields are locals of the call. -/
structure ObjState where
  positions : List Vec3
  normals : List Vec3
  uvs : List Vec2
  currentMaterial : String
  nsMap : List String
  meshes : MeshMap
  materials : MaterialMap
  deriving DecidableEq, Repr

/-- The `v` case of `LoadObj`'s dispatch: the arity check, the `parts[:3]`
reslice (a native slice-bounds panic when fewer than 3 fields are present,
because a `strings.Fields` result has `cap = len`), then numeric parsing and
the append to the position array. -/
def handleV (s : ObjState) (parts : List String) : Except (GoError × ObjState) ObjState :=
  if parts.length > 3 then
    .error (.invalidFormat "Vertex Position can only have 3 elements", s)
  else if parts.length < 3 then .error (.panicSliceBounds, s)
  else
    match parseFloats (parts.take 3) with
    | .error e => .error (e, s)
    | .ok [a, b, c] => .ok { s with positions := s.positions ++ [(a, b, c)] }
    | .ok _ => .error (.panicIndexOutOfRange, s)

/-- The `vn` case of `LoadObj`'s dispatch. -/
def handleVn (s : ObjState) (parts : List String) : Except (GoError × ObjState) ObjState :=
  if parts.length > 3 then
    .error (.invalidFormat "Surface Normal can only have 3 elements", s)
  else if parts.length < 3 then .error (.panicSliceBounds, s)
  else
    match parseFloats (parts.take 3) with
    | .error e => .error (e, s)
    | .ok [a, b, c] => .ok { s with normals := s.normals ++ [(a, b, c)] }
    | .ok _ => .error (.panicIndexOutOfRange, s)

/-- The `vt` case of `LoadObj`'s dispatch. -/
def handleVt (s : ObjState) (parts : List String) : Except (GoError × ObjState) ObjState :=
  if parts.length > 2 then
    .error (.invalidFormat "Texture coords only have 2 elements", s)
  else if parts.length < 2 then .error (.panicSliceBounds, s)
  else
    match parseFloats (parts.take 2) with
    | .error e => .error (e, s)
    | .ok [a, b] => .ok { s with uvs := s.uvs ++ [(a, b)] }
    | .ok _ => .error (.panicIndexOutOfRange, s)

/-- Resolve the attribute references at tuple offset `k` of the three face
tuples, in the source's evaluation order: `arr[f1[k]-1]`, `arr[f2[k]-1]`,
`arr[f3[k]-1]`, each a native panic when out of range. -/
def resolveTrio {α : Type} (arr : List α) (f1 f2 f3 : List Int) (k : Int) :
    Except GoError (α × α × α) :=
  match goIndex f1 k with
  | .error e => .error e
  | .ok i1 =>
    match goIndex arr (i1 - 1) with
    | .error e => .error e
    | .ok a =>
      match goIndex f2 k with
      | .error e => .error e
      | .ok i2 =>
        match goIndex arr (i2 - 1) with
        | .error e => .error e
        | .ok b =>
          match goIndex f3 k with
          | .error e => .error e
          | .ok i3 =>
            match goIndex arr (i3 - 1) with
            | .error e => .error e
            | .ok c => .ok (a, b, c)

/-- The flat-normal synthesis of the source: the un-normalized cross product
of the edge vectors `u = vb - va` and `v = vc - va`. -/
def crossEdges (va vb vc : Vec3) : Vec3 :=
  let u : Vec3 := (vb.1 - va.1, vb.2.1 - va.2.1, vb.2.2 - va.2.2)
  let v : Vec3 := (vc.1 - va.1, vc.2.1 - va.2.1, vc.2.2 - va.2.2)
  (u.2.1 * v.2.2 - u.2.2 * v.2.1,
   u.2.2 * v.1 - u.1 * v.2.2,
   u.1 * v.2.1 - u.2.1 * v.1)

def vec3List (v : Vec3) : List Scalar := [v.1, v.2.1, v.2.2]

def vec2List (v : Vec2) : List Scalar := [v.1, v.2]

/-- The per-vertex interleaving of the source: position, then uv when the
encoding carries a uv reference, then normal exactly when `NeedNormals` is
set. -/
def vertexBlock (opts : Options) (uvIdx : Int) (v : Vec3) (uv : Vec2) (n : Vec3) :
    List Scalar :=
  vec3List v ++ (if uvIdx ≠ -1 then vec2List uv else []) ++
    (if opts.NeedNormals then vec3List n else [])

/-- One iteration of the triangle loop in `LoadObj`'s face case: resolve
positions, then normals (from the normal array when the encoding carries a
reference, else the synthesized flat normal when requested, else the Go zero
value), then uvs, and interleave the three vertex blocks. -/
def triangleVertices (opts : Options) (positions normals : List Vec3) (uvs : List Vec2)
    (nIdx uvIdx : Int) (f1 f2 f3 : List Int) : Except GoError (List Scalar) :=
  match resolveTrio positions f1 f2 f3 0 with
  | .error e => .error e
  | .ok (va, vb, vc) =>
    match
      (if nIdx ≠ -1 then resolveTrio normals f1 f2 f3 nIdx
       else if opts.NeedNormals then
         .ok (crossEdges va vb vc, crossEdges va vb vc, crossEdges va vb vc)
       else .ok ((0, 0, 0), (0, 0, 0), (0, 0, 0))) with
    | .error e => .error e
    | .ok (na, nb, nc) =>
      match
        (if uvIdx ≠ -1 then resolveTrio uvs f1 f2 f3 uvIdx
         else .ok (((0 : Scalar), (0 : Scalar)), ((0 : Scalar), (0 : Scalar)),
           ((0 : Scalar), (0 : Scalar)))) with
      | .error e => .error e
      | .ok (uva, uvb, uvc) =>
        .ok (vertexBlock opts uvIdx va uva na ++ vertexBlock opts uvIdx vb uvb nb ++
          vertexBlock opts uvIdx vc uvc nc)

/-- The `i += 3` loop over the decoded face tuples. A leftover of one or two
tuples would be a native index panic (`faces[i+1]` / `faces[i+2]`); the arity
checks upstream make that unreachable. -/
def buildLoop (opts : Options) (positions normals : List Vec3) (uvs : List Vec2)
    (nIdx uvIdx : Int) : List (List Int) → Except GoError (List Scalar)
  | [] => .ok []
  | [_] => .error .panicIndexOutOfRange
  | [_, _] => .error .panicIndexOutOfRange
  | f1 :: f2 :: f3 :: rest =>
    match triangleVertices opts positions normals uvs nIdx uvIdx f1 f2 f3 with
    | .error e => .error e
    | .ok tri =>
      match buildLoop opts positions normals uvs nIdx uvIdx rest with
      | .error e => .error e
      | .ok more => .ok (tri ++ more)

/-- `nIdx` from the source: the offset of the normal reference inside a face
tuple, `-1` when the encoding carries none. -/
def normalOffset (vtype : Int) : Int :=
  if vtype = 2 then 2 else if vtype = 3 then 1 else -1

/-- `uvIdx` from the source: the offset of the uv reference inside a face
tuple, `-1` when the encoding carries none. -/
def uvOffset (vtype : Int) : Int :=
  if vtype = 2 || vtype = 1 then 1 else -1

/-- The `vertices` accumulation of `LoadObj`'s face case. -/
def buildVertices (opts : Options) (positions normals : List Vec3) (uvs : List Vec2)
    (vtype : Int) (faces : List (List Int)) : Except GoError (List Scalar) :=
  buildLoop opts positions normals uvs (normalOffset vtype) (uvOffset vtype) faces

/-- The token loop of the face case: trim each token, check that its
classification agrees with the record's, and decode its index tuple. -/
def collectFaces (vtype : Int) : List String → Except GoError (List (List Int))
  | [] => .ok []
  | p :: ps =>
    let p' := trimSlash p
    if vtype ≠ getFaceType p' then
      .error (.invalidFormat "Faces cannot have inconsistent format")
    else
      match collectFaces vtype ps with
      | .error e => .error e
      | .ok rest => .ok (getFaceData p' vtype :: rest)

/-- The `FaceTooShort` failure of the spec:
`errorInvalidFormat("Faces cannot have length less than 3", parts)`. -/
def faceTooShortErr : GoError := .invalidFormat "Faces cannot have length less than 3"

/-- The `UnsupportedFacePolygon` failure of the spec:
`errorNotSupported("Only Supports faces with length 3", parts)`. -/
def facePolygonErr : GoError := .notSupported "Only Supports faces with length 3"

/-- The `UndefinedFaceFormat` failure of the spec:
`errorInvalidFormat("Undefined face format", parts)`. -/
def undefinedFaceErr : GoError := .invalidFormat "Undefined face format"

/-- The bucket identifier
`fmt.Sprintf("mesh-vtype%d-material%s", vtype, currentMaterial)`. -/
def meshID (vtype : Int) (mat : String) : String :=
  "mesh-vtype" ++ toString vtype ++ "-material" ++ mat

/-- The mesh-bucket write of the source: create the bucket with an empty
vertex list if the key is missing, then append the interleaved vertex data. -/
def bucketAppend (m : MeshMap) (vtype : Int) (mat : String) (verts : List Scalar) :
    MeshMap :=
  let mid := meshID vtype mat
  match mapLookup m mid with
  | none => mapInsert m mid (Mesh.mk verts vtype mat)
  | some mesh => mapInsert m mid (Mesh.mk (mesh.Vertices ++ verts) mesh.Vtype mesh.MaterialName)

/-- The `f` case of `LoadObj`'s dispatch, in the source's statement order:
read `parts[0]` (a native panic when the record has no token), classify it,
check the token count, check the classification, decode the tokens, run the
triangle loop, and only then write the bucket. On every failure the state —
in particular the mesh map — is returned untouched. -/
def handleFace (opts : Options) (s : ObjState) (parts : List String) :
    Except (GoError × ObjState) ObjState :=
  match goIndex parts 0 with
  | .error e => .error (e, s)
  | .ok p0 =>
    let vtype := getFaceType (trimSlash p0)
    if parts.length < 3 then .error (faceTooShortErr, s)
    else if parts.length ≠ 3 then .error (facePolygonErr, s)
    else if vtype = -1 then .error (undefinedFaceErr, s)
    else
      match collectFaces vtype parts with
      | .error e => .error (e, s)
      | .ok faces =>
        if faces.length % 3 ≠ 0 then .error (.invalidFormat "Undefined Behavior", s)
        else
          match buildVertices opts s.positions s.normals s.uvs vtype faces with
          | .error e => .error (e, s)
          | .ok verts =>
            .ok { s with
              meshes :=
                if verts = [] then s.meshes
                else bucketAppend s.meshes vtype s.currentMaterial verts }

/-- The `mtllib` case: load each listed library in order, stopping at the
first failure; materials loaded before the failure stay visible. -/
def mtllibLoop (fsys : FileSys) (s : ObjState) :
    List String → Except (GoError × ObjState) ObjState
  | [] => .ok s
  | p :: ps =>
    match loadMtl fsys p s.materials with
    | (some e, mats') => .error (e, { s with materials := mats' })
    | (none, mats') => mtllibLoop fsys { s with materials := mats' } ps

/-- One line of `LoadObj`'s dispatch. Blank lines are skipped; `#` is a
comment; unknown keywords are diagnosed once (the diagnostic itself is side
I/O and not modelled) and never fail the decode. An error is paired with the
state at the failure, whose `meshes` and `materials` components the caller
can still see. -/
def processLine (opts : Options) (fsys : FileSys) (s : ObjState) (line : String) :
    Except (GoError × ObjState) ObjState :=
  match goFields line with
  | [] => .ok s
  | key :: parts =>
    if key = "#" then .ok s
    else if key = "v" then handleV s parts
    else if key = "vn" then handleVn s parts
    else if key = "vt" then handleVt s parts
    else if key = "f" then handleFace opts s parts
    else if key = "usemtl" then
      if parts.length ≠ 1 || parts.headD "" = "" then
        .ok { s with currentMaterial := "default" }
      else .ok { s with currentMaterial := parts.headD "" }
    else if key = "mtllib" then mtllibLoop fsys s parts
    else if s.nsMap.contains key then .ok s
    else .ok { s with nsMap := s.nsMap ++ [key] }

/-- The scan loop of `LoadObj`. -/
def loadObjLines (opts : Options) (fsys : FileSys) (s : ObjState) :
    List String → Except (GoError × ObjState) ObjState
  | [] => .ok s
  | line :: rest =>
    match processLine opts fsys s line with
    | .error es => .error es
    | .ok s' => loadObjLines opts fsys s' rest

/-- The locals of `LoadObj` at entry, wrapped around the caller-provided
maps. -/
def initState (meshes : MeshMap) (mats : MaterialMap) : ObjState :=
  { positions := [], normals := [], uvs := [], currentMaterial := "default",
    nsMap := [], meshes := meshes, materials := mats }

/-- `LoadObj` from the source: open the file and scan its lines. -/
def loadObj (opts : Options) (fsys : FileSys) (path : String)
    (meshes : MeshMap) (mats : MaterialMap) : Except (GoError × ObjState) ObjState :=
  match fsys path with
  | none => .error (.ioFailure path, initState meshes mats)
  | some lines => loadObjLines opts fsys (initState meshes mats) lines

/-- An empty file system, for decodes whose input uses no `mtllib` record. -/
def noFiles : FileSys := fun _ => none

attribute [local semireducible] Rat.add Rat.mul Rat.inv Rat.sub Rat.ofScientific

theorem goIndex_nil {α : Type} (i : Int) :
    goIndex ([] : List α) i = .error .panicIndexOutOfRange := by
  simp [goIndex]

theorem goIndex_cons_zero {α : Type} (a : α) (l : List α) : goIndex (a :: l) 0 = .ok a := by
  simp [goIndex]

theorem goIndex_cons_one {α : Type} (a b : α) (l : List α) :
    goIndex (a :: b :: l) 1 = .ok b := by
  simp [goIndex]

theorem goIndex_cons_two {α : Type} (a b c : α) (l : List α) :
    goIndex (a :: b :: c :: l) 2 = .ok c := by
  simp [goIndex]

/-- C1: for every attribute array, a 1-based index reference `i` with
`1 ≤ i ≤ length` resolves (through the `arr[i-1]` access of the face case) to
the `(i-1)`-th element of the array as it stands; an index of `0` or greater
than the current length is the native index-out-of-range failure instead of
any element. -/
theorem C1_index_resolution (arr : List Vec3) (i : Int) :
    (∀ v : Vec3, 1 ≤ i → i ≤ arr.length → arr.get? (i - 1).toNat = some v →
      goIndex arr (i - 1) = .ok v) ∧
    ((i = 0 ∨ (arr.length : Int) < i) →
      goIndex arr (i - 1) = .error .panicIndexOutOfRange) := by
  constructor
  · intro v h1 _h2 hv
    rcases List.get?_eq_some.mp hv with ⟨hlt, hget⟩
    have h0 : 0 ≤ i - 1 := by omega
    rw [goIndex, dif_pos ⟨h0, hlt⟩, hget]
  · intro h
    have hno : ¬(0 ≤ i - 1 ∧ (i - 1).toNat < arr.length) := by
      rcases h with h | h <;> omega
    rw [goIndex, dif_neg hno]

theorem C1_index_resolution_witness :
    goIndex [((0 : ℚ), (0 : ℚ), (0 : ℚ)), ((1 : ℚ), (0 : ℚ), (0 : ℚ))] (2 - 1) =
      .ok ((1 : ℚ), (0 : ℚ), (0 : ℚ)) ∧
    goIndex [((0 : ℚ), (0 : ℚ), (0 : ℚ))] (0 - 1) = .error .panicIndexOutOfRange := by
  constructor
  · exact (C1_index_resolution [(0, 0, 0), (1, 0, 0)] 2).1 (1, 0, 0)
      (by decide) (by decide) (by decide)
  · exact (C1_index_resolution [(0, 0, 0)] 0).2 (Or.inl rfl)

theorem goSplit_ne_nil (sep : Char) (l : List Char) : goSplit sep l ≠ [] := by
  induction l with
  | nil => simp [goSplit]
  | cons c cs ih =>
    rw [goSplit]
    split
    · simp
    · split
      · simp
      · simp

theorem getFaceType_eq_neg_one_iff (s : String) :
    getFaceType s = -1 ↔ 3 < (goSplit '/' s.data).length := by
  rw [getFaceType]
  rcases h : goSplit '/' s.data with _ | ⟨a, _ | ⟨b, _ | ⟨c, _ | ⟨d, rest⟩⟩⟩⟩
  · exact absurd h (goSplit_ne_nil '/' s.data)
  · simp
  · simp
  · constructor
    · intro hx
      have hx' : (if b ≠ [] then (2 : Int) else 3) = -1 := hx
      by_cases hb : b ≠ []
      · rw [if_pos hb] at hx'; exact absurd hx' (by decide)
      · rw [if_neg hb] at hx'; exact absurd hx' (by decide)
    · intro hx; simp at hx
  · simp

/-- C3 counterexample: classifying the empty token does not fail; it yields
`0` (`PositionOnly`), because splitting the empty string on `/` produces one
empty segment, not zero segments. -/
theorem C3_counterexample : getFaceType "" = 0 ∧ getFaceType "" ≠ -1 := by
  constructor
  · rfl
  · decide

/-- C3 (amended): classifying `"1"`, `"1/2"`, `"1/2/3"`, `"1//3"` yields
`PositionOnly`, `PositionUV`, `PositionUVNormal`, `PositionNormal`;
`"1/2/3/4"` fails with `UndefinedFaceFormat`, but the empty token classifies
as `PositionOnly`; in general classification fails exactly when the token has
more than three slash-segments (zero segments cannot occur). -/
theorem C3_classification :
    getFaceType "1" = 0 ∧ getFaceType "1/2" = 1 ∧ getFaceType "1/2/3" = 2 ∧
    getFaceType "1//3" = 3 ∧ getFaceType "1/2/3/4" = -1 ∧ getFaceType "" = 0 ∧
    ∀ s : String, (getFaceType s = -1 ↔ 3 < (goSplit '/' s.data).length) :=
  ⟨rfl, rfl, rfl, rfl, rfl, rfl, getFaceType_eq_neg_one_iff⟩

theorem C3_classification_witness : 3 < (goSplit '/' (String.data "1/2/3/4")).length :=
  (C3_classification.2.2.2.2.2.2 "1/2/3/4").mp rfl

/-- C4 counterexample: a face record with zero tokens does not fail with
`FaceTooShort`; the code reads `parts[0]` for classification before any
length check, which is the native index-out-of-range failure. -/
theorem C4_counterexample :
    processLine ⟨false⟩ noFiles (initState [] []) "f" =
      .error (.panicIndexOutOfRange, initState [] []) ∧
    GoError.panicIndexOutOfRange ≠ faceTooShortErr := by
  constructor
  · rfl
  · decide

/-- C4 (amended): a face record with one or two tokens fails with
`FaceTooShort` and one with more than three tokens fails with
`UnsupportedFacePolygon`, while a record with zero tokens hits the native
index-out-of-range failure on `parts[0]` before the length checks; in every
failing case the state — in particular the mesh-bucket map — is returned
untouched. -/
theorem C4_token_count (opts : Options) (s : ObjState) (parts : List String) :
    (parts = [] → handleFace opts s parts = .error (.panicIndexOutOfRange, s)) ∧
    (parts.length = 1 ∨ parts.length = 2 →
      handleFace opts s parts = .error (faceTooShortErr, s)) ∧
    (3 < parts.length → handleFace opts s parts = .error (facePolygonErr, s)) := by
  refine ⟨?_, ?_, ?_⟩
  · intro h
    subst h
    rfl
  · intro h
    match parts, h with
    | p :: ps, h =>
      have hlt : (p :: ps).length < 3 := by rcases h with h | h <;> omega
      simp only [handleFace, goIndex_cons_zero]
      rw [if_pos hlt]
  · intro h
    match parts, h with
    | p :: ps, h =>
      have h1 : ¬(p :: ps).length < 3 := by omega
      have h2 : (p :: ps).length ≠ 3 := by omega
      simp only [handleFace, goIndex_cons_zero]
      rw [if_neg h1, if_pos h2]

theorem C4_token_count_witness :
    handleFace ⟨false⟩ (initState [] []) ["1", "2"] =
      .error (faceTooShortErr, initState [] []) ∧
    handleFace ⟨false⟩ (initState [] []) ["1", "2", "3", "4"] =
      .error (facePolygonErr, initState [] []) := by
  constructor
  · exact (C4_token_count ⟨false⟩ (initState [] []) ["1", "2"]).2.1 (Or.inr rfl)
  · exact (C4_token_count ⟨false⟩ (initState [] []) ["1", "2", "3", "4"]).2.2 (by decide)

/-- C9 counterexample: a `v` record with fewer than 3 fields does not fail
with a format error; reslicing `parts[:3]` past the capacity of the
`strings.Fields` result is the native slice-bounds failure. -/
theorem C9_counterexample :
    processLine ⟨false⟩ noFiles (initState [] []) "v 1 2" =
      .error (.panicSliceBounds, initState [] []) ∧
    GoError.panicSliceBounds ≠ .invalidFormat "Vertex Position can only have 3 elements" := by
  constructor
  · rfl
  · decide

/-- C9 (amended): a `v` record with more than 3 fields fails with the
`>3 fields` format error; one with exactly 3 valid floating-point fields
appends exactly that 3-component tuple to the position array; but one with
fewer than 3 fields crashes with the native slice-bounds failure of
`parts[:3]` rather than failing with a format error. -/
theorem C9_vertex_arity (s : ObjState) (parts : List String) :
    (3 < parts.length →
      handleV s parts = .error (.invalidFormat "Vertex Position can only have 3 elements", s)) ∧
    (parts.length < 3 → handleV s parts = .error (.panicSliceBounds, s)) ∧
    (∀ (x y z : String) (a b c : Scalar), parts = [x, y, z] →
      parseFloat? x = some a → parseFloat? y = some b → parseFloat? z = some c →
      handleV s parts = .ok { s with positions := s.positions ++ [(a, b, c)] }) := by
  refine ⟨?_, ?_, ?_⟩
  · intro h
    have h1 : parts.length > 3 := h
    simp [handleV, h1]
  · intro h
    have h1 : ¬parts.length > 3 := by omega
    simp [handleV, h1, h]
  · intro x y z a b c hp hx hy hz
    subst hp
    simp [handleV, parseFloats, hx, hy, hz]

theorem C9_vertex_arity_witness :
    handleV (initState [] []) ["0", "1", "0.5"] =
      .ok { initState [] [] with positions := [((0 : ℚ), (1 : ℚ), (1 / 2 : ℚ))] } := by
  have hx : parseFloat? "0" = some (0 : ℚ) := rfl
  have hy : parseFloat? "1" = some (1 : ℚ) := rfl
  have hz : parseFloat? "0.5" = some (1 / 2 : ℚ) := rfl
  have h := (C9_vertex_arity (initState [] []) ["0", "1", "0.5"]).2.2
    "0" "1" "0.5" 0 1 (1 / 2) rfl hx hy hz
  simpa [initState] using h

/-- C2 counterexample: this decode fails with `FaceTooShort` on its last
line, yet the caller-visible mesh map of the reported state still holds the
bucket written by the earlier face record — the in-progress result is not
discarded and the caller sees a partial mesh map. -/
theorem C2_counterexample :
    loadObjLines ⟨false⟩ noFiles (initState [] [])
      ["v 0 0 0", "v 1 0 0", "v 0 1 0", "f 1 2 3", "f 1 2"] =
      .error (faceTooShortErr,
        { positions := [(0, 0, 0), (1, 0, 0), (0, 1, 0)], normals := [], uvs := [],
          currentMaterial := "default", nsMap := [],
          meshes := [("mesh-vtype0-materialdefault",
            Mesh.mk [0, 0, 0, 1, 0, 0, 0, 1, 0] 0 "default")],
          materials := [] }) ∧
    mapLookup [("mesh-vtype0-materialdefault",
        Mesh.mk [(0 : ℚ), 0, 0, 1, 0, 0, 0, 1, 0] 0 "default")]
      "mesh-vtype0-materialdefault" =
      some (Mesh.mk [0, 0, 0, 1, 0, 0, 0, 1, 0] 0 "default") :=
  ⟨rfl, rfl⟩

/-- C2 (amended): when the decode fails, the error is propagated, but there
is no rollback: the reported state — whose mesh and material maps are the
caller-visible ones, mutated in place — is exactly the state reached by
successfully processing a prefix of the input and then failing on the next
line, so every bucket and material written before the failure stays visible
to the caller. -/
theorem C2_no_rollback (opts : Options) (fsys : FileSys) :
    ∀ (lines : List String) (s : ObjState) (e : GoError) (s' : ObjState),
      loadObjLines opts fsys s lines = .error (e, s') →
      ∃ pre ln suf s1, lines = pre ++ ln :: suf ∧
        loadObjLines opts fsys s pre = .ok s1 ∧
        processLine opts fsys s1 ln = .error (e, s') := by
  intro lines
  induction lines with
  | nil =>
    intro s e s' h
    exact absurd h (by simp [loadObjLines])
  | cons l rest ih =>
    intro s e s' h
    rw [loadObjLines] at h
    cases hp : processLine opts fsys s l with
    | error es =>
      rw [hp] at h
      injection h with h'
      refine ⟨[], l, rest, s, rfl, rfl, ?_⟩
      rw [hp, h']
    | ok s1 =>
      rw [hp] at h
      rcases ih s1 e s' h with ⟨pre, ln, suf, s2, hsplit, hpre, hln⟩
      refine ⟨l :: pre, ln, suf, s2, by rw [hsplit]; rfl, ?_, hln⟩
      rw [loadObjLines, hp]
      exact hpre

theorem C2_no_rollback_witness :
    ∃ pre ln suf s1,
      (["v 0 0 0", "f 1 2 3 4"] : List String) = pre ++ ln :: suf ∧
      loadObjLines ⟨false⟩ noFiles (initState [] []) pre = .ok s1 ∧
      processLine ⟨false⟩ noFiles s1 ln =
        .error (facePolygonErr,
          { initState [] [] with positions := [(0, 0, 0)] }) :=
  C2_no_rollback ⟨false⟩ noFiles ["v 0 0 0", "f 1 2 3 4"] (initState [] [])
    facePolygonErr { initState [] [] with positions := [(0, 0, 0)] } rfl

/-- C5: the code evaluates its own face-token scan at the failing input. The
record `f 1 2 3x` carries the malformed integer text `3x`, yet the decode
succeeds — `fmt.Fscanf`'s error is discarded, the token scans as index `3`,
and the triangle is emitted — where the spec requires a parse failure for
that record. -/
theorem C5_scan_error_ignored :
    getFaceData "3x" 0 = [3] ∧
    loadObjLines ⟨false⟩ noFiles (initState [] [])
      ["v 0 0 0", "v 1 0 0", "v 0 1 0", "f 1 2 3x"] =
      .ok { positions := [(0, 0, 0), (1, 0, 0), (0, 1, 0)], normals := [], uvs := [],
            currentMaterial := "default", nsMap := [],
            meshes := [("mesh-vtype0-materialdefault",
              Mesh.mk [0, 0, 0, 1, 0, 0, 0, 1, 0] 0 "default")],
            materials := [] } :=
  ⟨rfl, rfl⟩

/-- C6: for a face record whose encoding carries no normal reference
(`PositionOnly` or `PositionUV`), with emit-normals on, each of the three
emitted vertices receives the identical flat normal, the un-normalized cross
product `(v1→v2) × (v1→v3)` of the triangle's edge vectors; concretely,
positions `(0,0,0),(1,0,0),(0,1,0)` with record `f 1 2 3` synthesize the
normal `(0,0,1)` on all three vertices. -/
theorem C6_flat_normal :
    (∀ (opts : Options) (P N : List Vec3) (U : List Vec2) (i1 i2 i3 : Int)
      (va vb vc : Vec3),
      opts.NeedNormals = true →
      goIndex P (i1 - 1) = .ok va → goIndex P (i2 - 1) = .ok vb →
      goIndex P (i3 - 1) = .ok vc →
      crossEdges va vb vc =
        ((vb.2.1 - va.2.1) * (vc.2.2 - va.2.2) - (vb.2.2 - va.2.2) * (vc.2.1 - va.2.1),
         (vb.2.2 - va.2.2) * (vc.1 - va.1) - (vb.1 - va.1) * (vc.2.2 - va.2.2),
         (vb.1 - va.1) * (vc.2.1 - va.2.1) - (vb.2.1 - va.2.1) * (vc.1 - va.1)) ∧
      buildVertices opts P N U 0 [[i1], [i2], [i3]] =
        .ok (vec3List va ++ vec3List (crossEdges va vb vc) ++
             (vec3List vb ++ vec3List (crossEdges va vb vc)) ++
             (vec3List vc ++ vec3List (crossEdges va vb vc))) ∧
      ∀ (u1 u2 u3 : Int) (uva uvb uvc : Vec2),
        goIndex U (u1 - 1) = .ok uva → goIndex U (u2 - 1) = .ok uvb →
        goIndex U (u3 - 1) = .ok uvc →
        buildVertices opts P N U 1 [[i1, u1], [i2, u2], [i3, u3]] =
          .ok (vec3List va ++ vec2List uva ++ vec3List (crossEdges va vb vc) ++
               (vec3List vb ++ vec2List uvb ++ vec3List (crossEdges va vb vc)) ++
               (vec3List vc ++ vec2List uvc ++ vec3List (crossEdges va vb vc)))) ∧
    crossEdges (0, 0, 0) (1, 0, 0) (0, 1, 0) = (0, 0, 1) ∧
    loadObjLines ⟨true⟩ noFiles (initState [] [])
      ["v 0 0 0", "v 1 0 0", "v 0 1 0", "f 1 2 3"] =
      .ok { positions := [(0, 0, 0), (1, 0, 0), (0, 1, 0)], normals := [], uvs := [],
            currentMaterial := "default", nsMap := [],
            meshes := [("mesh-vtype0-materialdefault",
              Mesh.mk [0, 0, 0, 0, 0, 1, 1, 0, 0, 0, 0, 1, 0, 1, 0, 0, 0, 1] 0 "default")],
            materials := [] } := by
  refine ⟨?_, rfl, rfl⟩
  intro opts P N U i1 i2 i3 va vb vc hN h1 h2 h3
  refine ⟨rfl, ?_, ?_⟩
  · simp [buildVertices, buildLoop, triangleVertices, resolveTrio, normalOffset,
      uvOffset, vertexBlock, goIndex_cons_zero, hN, h1, h2, h3]
  · intro u1 u2 u3 uva uvb uvc hu1 hu2 hu3
    simp [buildVertices, buildLoop, triangleVertices, resolveTrio, normalOffset,
      uvOffset, vertexBlock, goIndex_cons_zero, goIndex_cons_one, hN, h1, h2, h3,
      hu1, hu2, hu3]

theorem C6_flat_normal_witness :
    buildVertices ⟨true⟩ [((0 : ℚ), (0 : ℚ), (0 : ℚ)), (1, 0, 0), (0, 1, 0)] [] [] 0
      [[1], [2], [3]] =
      .ok [0, 0, 0, 0, 0, 1, 1, 0, 0, 0, 0, 1, 0, 1, 0, 0, 0, 1] := by
  have h := (C6_flat_normal.1 ⟨true⟩ [(0, 0, 0), (1, 0, 0), (0, 1, 0)] [] [] 1 2 3
    (0, 0, 0) (1, 0, 0) (0, 1, 0) rfl rfl rfl rfl).2.1
  simpa [vec3List, crossEdges] using h

/-- C10: when the encoding carries normal references (`PositionNormal` or
`PositionUVNormal`), the normal indices are resolved against the normal array
for any value of the emit-normals option — so a normal reference whose
resolution is the native out-of-range failure fails the whole face build even
though, with emit-normals off, no normal component would have been emitted. -/
theorem C10_normals_resolved_when_not_emitted (opts : Options) (P N : List Vec3)
    (U : List Vec2) (i1 i2 i3 n1 n2 n3 : Int) (va vb vc : Vec3)
    (h1 : goIndex P (i1 - 1) = .ok va) (h2 : goIndex P (i2 - 1) = .ok vb)
    (h3 : goIndex P (i3 - 1) = .ok vc)
    (hbad : goIndex N (n1 - 1) = .error .panicIndexOutOfRange) :
    buildVertices opts P N U 3 [[i1, n1], [i2, n2], [i3, n3]] =
      .error .panicIndexOutOfRange ∧
    ∀ u1 u2 u3 : Int,
      buildVertices opts P N U 2 [[i1, u1, n1], [i2, u2, n2], [i3, u3, n3]] =
        .error .panicIndexOutOfRange := by
  constructor
  · simp [buildVertices, buildLoop, triangleVertices, resolveTrio, normalOffset,
      uvOffset, goIndex_cons_zero, goIndex_cons_one, h1, h2, h3, hbad]
  · intro u1 u2 u3
    simp [buildVertices, buildLoop, triangleVertices, resolveTrio, normalOffset,
      uvOffset, goIndex_cons_zero, goIndex_cons_one, goIndex_cons_two, h1, h2, h3, hbad]

theorem C10_normals_resolved_when_not_emitted_witness :
    buildVertices ⟨false⟩ [((0 : ℚ), (0 : ℚ), (0 : ℚ))] [] [] 3 [[1, 1], [1, 1], [1, 1]] =
      .error .panicIndexOutOfRange :=
  (C10_normals_resolved_when_not_emitted ⟨false⟩ [(0, 0, 0)] [] [] 1 1 1 1 1 1
    (0, 0, 0) (0, 0, 0) (0, 0, 0) rfl rfl rfl rfl).1

/-- C7 counterexample: a face record whose encoding carries normal references
(`1//1` style), decoded with emit-normals off, emits only the positions: the
bucket holds 9 scalars, not the 18 the claim's "resolved normals are part of
each emitted vertex" would require. -/
theorem C7_counterexample :
    loadObjLines ⟨false⟩ noFiles (initState [] [])
      ["v 0 0 0", "v 1 0 0", "v 0 1 0", "vn 0 0 1", "f 1//1 2//1 3//1"] =
      .ok { positions := [(0, 0, 0), (1, 0, 0), (0, 1, 0)], normals := [(0, 0, 1)],
            uvs := [], currentMaterial := "default", nsMap := [],
            meshes := [("mesh-vtype3-materialdefault",
              Mesh.mk [0, 0, 0, 1, 0, 0, 0, 1, 0] 3 "default")],
            materials := [] } ∧
    ([(0 : ℚ), 0, 0, 1, 0, 0, 0, 1, 0] : List Scalar) ≠
      [0, 0, 0, 0, 0, 1, 1, 0, 0, 0, 0, 1, 0, 1, 0, 0, 0, 1] := by
  constructor
  · rfl
  · decide

/-- C7 (amended): an accepted face record's data is interleaved per vertex in
order v1, v2, v3 with attributes position, then uv when the encoding carries
a uv reference, then normal — but a normal component is emitted exactly when
the emit-normals option is on (resolved from the normal array when the
encoding carries normal references); with emit-normals off no normals are
emitted even for `PositionNormal`/`PositionUVNormal` records. -/
theorem C7_interleaving (opts : Options) (P N : List Vec3) (U : List Vec2)
    (i1 i2 i3 : Int) (va vb vc : Vec3)
    (h1 : goIndex P (i1 - 1) = .ok va) (h2 : goIndex P (i2 - 1) = .ok vb)
    (h3 : goIndex P (i3 - 1) = .ok vc) :
    (∀ (n1 n2 n3 : Int) (na nb nc : Vec3),
      goIndex N (n1 - 1) = .ok na → goIndex N (n2 - 1) = .ok nb →
      goIndex N (n3 - 1) = .ok nc →
      buildVertices opts P N U 3 [[i1, n1], [i2, n2], [i3, n3]] =
        .ok ((vec3List va ++ (if opts.NeedNormals then vec3List na else [])) ++
             (vec3List vb ++ (if opts.NeedNormals then vec3List nb else [])) ++
             (vec3List vc ++ (if opts.NeedNormals then vec3List nc else []))) ∧
      ∀ (u1 u2 u3 : Int) (uva uvb uvc : Vec2),
        goIndex U (u1 - 1) = .ok uva → goIndex U (u2 - 1) = .ok uvb →
        goIndex U (u3 - 1) = .ok uvc →
        buildVertices opts P N U 2 [[i1, u1, n1], [i2, u2, n2], [i3, u3, n3]] =
          .ok ((vec3List va ++ vec2List uva ++ (if opts.NeedNormals then vec3List na else [])) ++
               (vec3List vb ++ vec2List uvb ++ (if opts.NeedNormals then vec3List nb else [])) ++
               (vec3List vc ++ vec2List uvc ++ (if opts.NeedNormals then vec3List nc else [])))) ∧
    (opts.NeedNormals = false →
      buildVertices opts P N U 0 [[i1], [i2], [i3]] =
        .ok (vec3List va ++ vec3List vb ++ vec3List vc) ∧
      ∀ (u1 u2 u3 : Int) (uva uvb uvc : Vec2),
        goIndex U (u1 - 1) = .ok uva → goIndex U (u2 - 1) = .ok uvb →
        goIndex U (u3 - 1) = .ok uvc →
        buildVertices opts P N U 1 [[i1, u1], [i2, u2], [i3, u3]] =
          .ok (vec3List va ++ vec2List uva ++ (vec3List vb ++ vec2List uvb) ++
               (vec3List vc ++ vec2List uvc))) := by
  constructor
  · intro n1 n2 n3 na nb nc hn1 hn2 hn3
    constructor
    · simp [buildVertices, buildLoop, triangleVertices, resolveTrio, normalOffset,
        uvOffset, vertexBlock, goIndex_cons_zero, goIndex_cons_one, h1, h2, h3,
        hn1, hn2, hn3]
    · intro u1 u2 u3 uva uvb uvc hu1 hu2 hu3
      simp [buildVertices, buildLoop, triangleVertices, resolveTrio, normalOffset,
        uvOffset, vertexBlock, goIndex_cons_zero, goIndex_cons_one, goIndex_cons_two,
        h1, h2, h3, hn1, hn2, hn3, hu1, hu2, hu3]
  · intro hN
    constructor
    · simp [buildVertices, buildLoop, triangleVertices, resolveTrio, normalOffset,
        uvOffset, vertexBlock, goIndex_cons_zero, hN, h1, h2, h3]
    · intro u1 u2 u3 uva uvb uvc hu1 hu2 hu3
      simp [buildVertices, buildLoop, triangleVertices, resolveTrio, normalOffset,
        uvOffset, vertexBlock, goIndex_cons_zero, goIndex_cons_one, hN, h1, h2, h3,
        hu1, hu2, hu3]

theorem C7_interleaving_witness :
    buildVertices ⟨false⟩ [((0 : ℚ), (0 : ℚ), (0 : ℚ))] [((0 : ℚ), (0 : ℚ), (1 : ℚ))] [] 3
      [[1, 1], [1, 1], [1, 1]] =
      .ok [0, 0, 0, 0, 0, 0, 0, 0, 0] := by
  have h := ((C7_interleaving ⟨false⟩ [(0, 0, 0)] [(0, 0, 1)] [] 1 1 1
    (0, 0, 0) (0, 0, 0) (0, 0, 0) rfl rfl rfl).1 1 1 1
    (0, 0, 1) (0, 0, 1) (0, 0, 1) rfl rfl rfl).1
  simpa [vec3List] using h

theorem meshID_material_inj (vt : Int) {m1 m2 : String} (h : m1 ≠ m2) :
    meshID vt m1 ≠ meshID vt m2 := by
  intro heq
  apply h
  have hd := congrArg String.data heq
  simp only [meshID, String.data_append] at hd
  exact String.ext (List.append_cancel_left hd)

/-- C8: buckets are keyed by the (encoding, material) pair. Two appends under
the same key land in the same bucket in input order; keys with different
material names are distinct strings, so a `usemtl` change routes the later
face into a distinct bucket that leaves the earlier one untouched (buckets
are only ever appended to, never merged); and a concrete run shows the full
pipeline doing exactly that. -/
theorem C8_bucketing :
    (∀ (m : MeshMap) (vt : Int) (mat : String) (V1 V2 : List Scalar),
      mapLookup m (meshID vt mat) = none →
      mapLookup (bucketAppend (bucketAppend m vt mat V1) vt mat V2) (meshID vt mat) =
        some (Mesh.mk (V1 ++ V2) vt mat)) ∧
    (∀ (vt : Int) (m1 m2 : String), m1 ≠ m2 → meshID vt m1 ≠ meshID vt m2) ∧
    (∀ (m : MeshMap) (vt : Int) (mat1 mat2 : String) (V1 V2 : List Scalar),
      mat1 ≠ mat2 →
      mapLookup m (meshID vt mat1) = none → mapLookup m (meshID vt mat2) = none →
      mapLookup (bucketAppend (bucketAppend m vt mat1 V1) vt mat2 V2) (meshID vt mat1) =
        some (Mesh.mk V1 vt mat1) ∧
      mapLookup (bucketAppend (bucketAppend m vt mat1 V1) vt mat2 V2) (meshID vt mat2) =
        some (Mesh.mk V2 vt mat2)) ∧
    loadObjLines ⟨false⟩ noFiles (initState [] [])
      ["v 0 0 0", "v 1 0 0", "v 0 1 0", "f 1 2 3", "f 2 3 1", "usemtl red", "f 1 2 3"] =
      .ok { positions := [(0, 0, 0), (1, 0, 0), (0, 1, 0)], normals := [], uvs := [],
            currentMaterial := "red", nsMap := [],
            meshes := [("mesh-vtype0-materialred",
                Mesh.mk [0, 0, 0, 1, 0, 0, 0, 1, 0] 0 "red"),
              ("mesh-vtype0-materialdefault",
                Mesh.mk [0, 0, 0, 1, 0, 0, 0, 1, 0, 1, 0, 0, 0, 1, 0, 0, 0, 0] 0 "default"),
              ("mesh-vtype0-materialdefault",
                Mesh.mk [0, 0, 0, 1, 0, 0, 0, 1, 0] 0 "default")],
            materials := [] } := by
  refine ⟨?_, fun vt m1 m2 h => meshID_material_inj vt h, ?_, rfl⟩
  · intro m vt mat V1 V2 h
    simp [bucketAppend, mapInsert, mapLookup, h]
  · intro m vt mat1 mat2 V1 V2 hne hl1 hl2
    have hid := meshID_material_inj vt hne
    constructor <;>
      simp [bucketAppend, mapInsert, mapLookup, hl1, hl2, hid, Ne.symm hid]

theorem C8_bucketing_witness :
    mapLookup (bucketAppend (bucketAppend [] 0 "default" [1]) 0 "default" [2])
      (meshID 0 "default") = some (Mesh.mk [(1 : ℚ), 2] 0 "default") := by
  have h := C8_bucketing.1 [] 0 "default" [1] [2] rfl
  simpa using h

end ObjLoader
